import Mathlib

/-!
Verification of the BIP32 child-key-derivation core in `pycoin/key/bip32.py`:
`subkey_secret_exponent_chain_code_pair` and
`subkey_public_pair_chain_code_pair`, shallowly embedded below together with
the external primitives they call.
-/

/-- The order of the secp256k1 generator, `ORDER = ecdsa.generator_secp256k1.order()`
in the source (0xFFFFFFFFFFFFFFFFFFFFFFFFFFFFFFFEBAAEDCE6AF48A03BBFD25E8CD0364141). -/
def ORDER : ℕ := 115792089237316195423570985008687907852837564279074904382605163141518161494337

/-- Modelled from the spec: the curve primitive (`pycoin.ecdsa`, not under
`src/`) is a finite-field point group of scalar order `ORDER` with generator,
point addition, scalar multiplication and a point-at-infinity test.  secp256k1
has cofactor 1 and prime order, so its point group is cyclic of order `ORDER`,
generated by the generator; a point is represented here by its discrete
logarithm, a natural number taken modulo `ORDER`.  The identity (the point at
infinity) is `0` and the generator is `1`. -/
abbrev Point : Type := ℕ

/-- Modelled from the spec: the point at infinity of the external curve primitive. -/
def INFINITY : Point := 0

/-- Modelled from the spec: the secp256k1 generator of the external curve primitive. -/
def generator_secp256k1 : Point := 1

/-- Modelled from the spec: point addition of the external curve primitive,
in the discrete-logarithm representation. -/
def pointAdd (p q : Point) : Point := (p + q) % ORDER

/-- Modelled from the spec: scalar multiplication of the external curve
primitive.  `Point.__mul__` first reduces the scalar modulo the point order
(set to `ORDER` on all points this module builds), then double-and-adds, so
the result is the reduced scalar acting on the point. -/
def pointMul (e : ℕ) (p : Point) : Point := (e % ORDER) * p % ORDER

/-- Modelled from the spec: `ecdsa.public_pair_for_secret_exponent(g, e)`,
the public point `e·g` of a secret exponent. -/
def public_pair_for_secret_exponent (g : Point) (e : ℕ) : Point := pointMul e g

/-- Big-endian byte encoding of `v` into `w` bytes (most significant first). -/
def beBytes (w v : ℕ) : List ℕ := (List.range w).map (fun j => v / 256 ^ (w - 1 - j) % 256)

/-- Modelled from the spec: `pycoin.encoding.to_bytes_32`, the fixed-width
32-byte big-endian integer codec (not under `src/`). -/
def to_bytes_32 (v : ℕ) : List ℕ := beBytes 32 v

/-- Modelled from the spec: `pycoin.encoding.from_bytes_32`, the big-endian
integer of a 32-byte string (not under `src/`). -/
def from_bytes_32 (bs : List ℕ) : ℕ := bs.foldl (fun acc b => acc * 256 + b) 0

/-- `struct.pack(">L", i)`: the unsigned 4-byte big-endian encoding of `i`;
`struct.error` (modelled as `none`) when `i` does not fit an unsigned 32-bit
value. -/
def struct_pack_L (i : ℕ) : Option (List ℕ) := if i < 2 ^ 32 then some (beBytes 4 i) else none

/-- `struct.pack(">l", i)`: the signed 4-byte big-endian encoding of `i`;
`struct.error` (modelled as `none`) when a non-negative `i` does not fit a
signed 32-bit value, i.e. when `2 ^ 31 ≤ i`. -/
def struct_pack_l (i : ℕ) : Option (List ℕ) := if i < 2 ^ 31 then some (beBytes 4 i) else none

/-- A Python exception escaping the derivation functions: either the
`struct.error` raised by `struct.pack` on an out-of-range index, or a
`ValueError` carrying its message. -/
inductive PyErr : Type where
  | structError : PyErr
  | valueError : String → PyErr
deriving DecidableEq, Repr

/-- The module-level constant `_SUBKEY_VALIDATION_LOG_ERR_FMT` passed to
`logger.critical` on every `ValueError` path (abbreviated header shown in
full in the source; it is a fixed string mentioning no run-time data). -/
def SUBKEY_VALIDATION_LOG_ERR_FMT : String :=
  "BUY A LOTTO TICKET RIGHT NOW! (And consider giving up your wallet to\nscience!)\n\nYou have stumbled across and astronomically unlikely scenario. Your HD\nwallet contains an invalid subkey. Having access to this information would\nbe incredibly valuable to the Bitcoin development community.\n\nIf you are inclined to help, please make sure to back up this wallet (or\nany outputted information) onto a USB drive and e-mail \"Richard Kiss\"\n<him@richardkiss.com> or \"Matt Bogosian\" <mtb19@columbia.edu> for\ninstructions on how best to donate it without losing your bitcoins.\n\nWARNING: DO NOT SEND YOUR WALLET FILE UNLESS YOU WANT TO LOSE ALL THE\nBITCOINS IT CONTAINS."

/-- The message of the first `ValueError` of
`subkey_secret_exponent_chain_code_pair`:
`bad derviation: I_L >= ` followed by the decimal `ORDER` (Python `format`). -/
def msg_IL_ge_order : String := "bad derviation: I_L >= " ++ toString ORDER

/-- The message of the second `ValueError` of
`subkey_secret_exponent_chain_code_pair`:
`bad derviation: k_` followed by the decimal index `i` and ` == 0` (Python `format`). -/
def msg_k_zero (i : ℕ) : String := "bad derviation: k_" ++ toString i ++ " == 0"

/-- The message of the `ValueError` of `subkey_public_pair_chain_code_pair`:
`bad derviation: K_` followed by the decimal index `i`, ` == ` and the printed point (Python `format`), raised only when
`the_point == INFINITY`.  Modelled from the spec: the external curve
primitive renders the point at infinity as the string `infinity`. -/
def msg_K_infinity (i : ℕ) : String := "bad derviation: K_" ++ toString i ++ " == infinity"

section CKD

/- The two external byte-level primitives the derivation functions consume,
kept abstract: `sec` is `pycoin.encoding.public_pair_to_sec(·, compressed=True)`
(modelled from the spec: the compressed SEC codec of the external curve
primitive, not under `src/`), and `hmac512 key msg` is
`hmac.HMAC(key, msg, hashlib.sha512).digest()` from the Python standard
library. -/
variable (sec : Point → List ℕ) (hmac512 : List ℕ → List ℕ → List ℕ)

/-- The `data` bytes hashed by `subkey_secret_exponent_chain_code_pair`:
a `0x00` byte, then `to_bytes_32(secret_exponent)`, then `i_as_bytes` when hardened, else
`public_pair_to_sec(public_pair or public_pair_for_secret_exponent(g, secret_exponent)) + i_as_bytes`. -/
def subkey_secret_data (secret_exponent : ℕ) (i_as_bytes : List ℕ)
    ( is_hardened : Bool) (public_pair : Option Point) : List ℕ :=
  if is_hardened then
    0 :: (to_bytes_32 secret_exponent ++ i_as_bytes)
  else
    sec (public_pair.getD (public_pair_for_secret_exponent generator_secp256k1 secret_exponent))
      ++ i_as_bytes

/-- `subkey_secret_exponent_chain_code_pair` from `src/pycoin/key/bip32.py`,
returning the list of `logger.critical` messages it emits together with its
result: `Except.ok (new_secret_exponent, new_chain_code)` on return,
`Except.error` on a raised exception. -/
def subkey_secret_exponent_chain_code_pair (secret_exponent : ℕ)
    (chain_code_bytes : List ℕ) (i : ℕ) ( is_hardened : Bool)
    (public_pair : Option Point) : List String × Except PyErr (ℕ × List ℕ) :=
  match struct_pack_L i with
  | none => ([], Except.error PyErr.structError)
  | some i_as_bytes =>
    let data := subkey_secret_data sec secret_exponent i_as_bytes is_hardened public_pair
    let I64 := hmac512 chain_code_bytes data
    let I_left_as_exponent := from_bytes_32 (I64.take 32)
    if ORDER ≤ I_left_as_exponent then
      ([SUBKEY_VALIDATION_LOG_ERR_FMT], Except.error (PyErr.valueError msg_IL_ge_order))
    else
      let new_secret_exponent := (I_left_as_exponent + secret_exponent) % ORDER
      if new_secret_exponent = 0 then
        ([SUBKEY_VALIDATION_LOG_ERR_FMT], Except.error (PyErr.valueError (msg_k_zero i)))
      else
        ([], Except.ok (new_secret_exponent, I64.drop 32))

/-- `subkey_public_pair_chain_code_pair` from `src/pycoin/key/bip32.py`,
returning the list of `logger.critical` messages it emits together with its
result.  Note the index is packed with `struct.pack(">l", i)` (signed). -/
def subkey_public_pair_chain_code_pair (public_pair : Point)
    (chain_code_bytes : List ℕ) (i : ℕ) : List String × Except PyErr (Point × List ℕ) :=
  match struct_pack_l i with
  | none => ([], Except.error PyErr.structError)
  | some i_as_bytes =>
    let data := sec public_pair ++ i_as_bytes
    let I64 := hmac512 chain_code_bytes data
    let I_left_as_exponent := from_bytes_32 (I64.take 32)
    let the_point := pointAdd (pointMul I_left_as_exponent generator_secp256k1) public_pair
    if the_point = INFINITY then
      ([SUBKEY_VALIDATION_LOG_ERR_FMT], Except.error (PyErr.valueError (msg_K_infinity i)))
    else
      if ORDER ≤ I_left_as_exponent then
        ([SUBKEY_VALIDATION_LOG_ERR_FMT], Except.error (PyErr.valueError msg_IL_ge_order))
      else
        ([], Except.ok (the_point, I64.drop 32))

/-- The integer `I_left_as_exponent` of a `subkey_secret_exponent_chain_code_pair`
run at an in-range index: the big-endian integer of the first 32 bytes of
`HMAC-SHA512(chain_code_bytes, data)`. -/
def subkey_secret_IL (secret_exponent : ℕ) (chain_code_bytes : List ℕ) (i : ℕ)
    ( is_hardened : Bool) (public_pair : Option Point) : ℕ :=
  from_bytes_32 ((hmac512 chain_code_bytes
    (subkey_secret_data sec secret_exponent (beBytes 4 i) is_hardened public_pair)).take 32)

/-- The integer `I_left_as_exponent` of a `subkey_public_pair_chain_code_pair`
run at an in-range index. -/
def subkey_public_IL (public_pair : Point) (chain_code_bytes : List ℕ) (i : ℕ) : ℕ :=
  from_bytes_32 ((hmac512 chain_code_bytes (sec public_pair ++ beBytes 4 i)).take 32)

/-- Written from the spec's words (§4.1), for comparison with the source
function: data per the hardened flag, `I = HMAC-SHA512(chain_code, data)`,
`I_L` the big-endian integer of `I[0:32]`,
`new_secret_exponent = (I_L + secret_exponent) mod n`,
`new_chain_code = I[32:64]`. -/
def reference_private_child (secret_exponent : ℕ) (chain_code : List ℕ) (i : ℕ)
    (hardened : Bool) : ℕ × List ℕ :=
  let data :=
    if hardened then
      0 :: (to_bytes_32 secret_exponent ++ beBytes 4 i)
    else
      sec (pointMul secret_exponent generator_secp256k1) ++ beBytes 4 i
  let I := hmac512 chain_code data
  ((from_bytes_32 (I.take 32) + secret_exponent) % ORDER, I.drop 32)

/-- Written from the spec's words (§4.2), for comparison with the source
function: `I = HMAC-SHA512(chain_code, compressed-point(P) ‖ 4-byte big-endian i)`,
`new_public_point = I_L·generator + P`, `new_chain_code = I[32:64]`. -/
def reference_public_child (public_point : Point) (chain_code : List ℕ) (i : ℕ) :
    Point × List ℕ :=
  let I := hmac512 chain_code (sec public_point ++ beBytes 4 i)
  (pointAdd (pointMul (from_bytes_32 (I.take 32)) generator_secp256k1) public_point, I.drop 32)

end CKD

/-- A concrete stand-in for the compressed SEC codec, used to evaluate the
derivation functions at concrete inputs: a prefix byte 2 followed by the
32-byte big-endian point representation. -/
def secDemo : Point → List ℕ := fun p => 2 :: to_bytes_32 p

/-- A concrete stand-in HMAC whose 64-byte output is all zeros, so that
`I_L = 0` and derivation succeeds. -/
def hmacZero : List ℕ → List ℕ → List ℕ := fun _ _ => List.replicate 64 0

/-- A concrete stand-in HMAC whose 64-byte output is all `0xff`, so that
`I_L = 2 ^ 256 - 1 ≥ ORDER` and derivation fails on the `I_L` check. -/
def hmacFF : List ℕ → List ℕ → List ℕ := fun _ _ => List.replicate 64 255

/-- A concrete stand-in HMAC whose first 32 output bytes encode `ORDER - 1`,
so that with `secret_exponent = 1` the derived exponent is `0` and derivation
fails on the zero check. -/
def hmacOrderMinusOne : List ℕ → List ℕ → List ℕ :=
  fun _ _ => to_bytes_32 (ORDER - 1) ++ List.replicate 32 0

/-- Equality of `Except` results is decidable componentwise. -/
instance exceptDecEq {e a : Type} [DecidableEq e] [DecidableEq a] : DecidableEq (Except e a)
  | Except.error u, Except.error v =>
    if h : u = v then isTrue (by rw [h]) else isFalse (fun hc => by cases hc; exact h rfl)
  | Except.error _, Except.ok _ => isFalse (fun hc => by cases hc)
  | Except.ok _, Except.error _ => isFalse (fun hc => by cases hc)
  | Except.ok u, Except.ok v =>
    if h : u = v then isTrue (by rw [h]) else isFalse (fun hc => by cases hc; exact h rfl)

lemma pointMul_generator (a : ℕ) : pointMul a generator_secp256k1 = a % ORDER := by
  unfold pointMul generator_secp256k1
  rw [Nat.mul_one, Nat.mod_mod_of_dvd a dvd_rfl]

lemma pointAdd_generator_generator (a b : ℕ) :
    pointAdd (pointMul a generator_secp256k1) (pointMul b generator_secp256k1) =
      (a + b) % ORDER := by
  rw [pointMul_generator, pointMul_generator]
  unfold pointAdd
  exact (Nat.add_mod a b ORDER).symm

lemma subkey_secret_run (sec : Point → List ℕ) (hmac512 : List ℕ → List ℕ → List ℕ)
    (k : ℕ) (cc : List ℕ) (i : ℕ) (hd : Bool) (pp : Option Point) (h32 : i < 2 ^ 32) :
    subkey_secret_exponent_chain_code_pair sec hmac512 k cc i hd pp =
      if ORDER ≤ subkey_secret_IL sec hmac512 k cc i hd pp then
        ([SUBKEY_VALIDATION_LOG_ERR_FMT], Except.error (PyErr.valueError msg_IL_ge_order))
      else if (subkey_secret_IL sec hmac512 k cc i hd pp + k) % ORDER = 0 then
        ([SUBKEY_VALIDATION_LOG_ERR_FMT], Except.error (PyErr.valueError (msg_k_zero i)))
      else
        ([], Except.ok ((subkey_secret_IL sec hmac512 k cc i hd pp + k) % ORDER,
          (hmac512 cc (subkey_secret_data sec k (beBytes 4 i) hd pp)).drop 32)) := by
  unfold subkey_secret_exponent_chain_code_pair struct_pack_L subkey_secret_IL
  rw [if_pos h32]

lemma subkey_public_run (sec : Point → List ℕ) (hmac512 : List ℕ → List ℕ → List ℕ)
    (P : Point) (cc : List ℕ) (i : ℕ) (h31 : i < 2 ^ 31) :
    subkey_public_pair_chain_code_pair sec hmac512 P cc i =
      if pointAdd (pointMul (subkey_public_IL sec hmac512 P cc i) generator_secp256k1) P
          = INFINITY then
        ([SUBKEY_VALIDATION_LOG_ERR_FMT], Except.error (PyErr.valueError (msg_K_infinity i)))
      else if ORDER ≤ subkey_public_IL sec hmac512 P cc i then
        ([SUBKEY_VALIDATION_LOG_ERR_FMT], Except.error (PyErr.valueError msg_IL_ge_order))
      else
        ([], Except.ok
          (pointAdd (pointMul (subkey_public_IL sec hmac512 P cc i) generator_secp256k1) P,
           (hmac512 cc (sec P ++ beBytes 4 i)).drop 32)) := by
  unfold subkey_public_pair_chain_code_pair struct_pack_l subkey_public_IL
  rw [if_pos h31]

lemma subkey_secret_data_getD (sec : Point → List ℕ) (k : ℕ) (b : List ℕ) (hd : Bool) :
    subkey_secret_data sec k b hd
        (some (public_pair_for_secret_exponent generator_secp256k1 k)) =
      subkey_secret_data sec k b hd none := by
  cases hd <;> rfl

/-- Claim C7: passing the precomputed `public_pair = generator·secret_exponent`
to `subkey_secret_exponent_chain_code_pair` yields exactly the same result
(logs, errors and returned pair) as passing `public_pair = None`; the argument
is an optimization only. -/
theorem subkey_secret_public_pair_optional (sec : Point → List ℕ)
    (hmac512 : List ℕ → List ℕ → List ℕ) (k : ℕ) (cc : List ℕ) (i : ℕ) (hd : Bool) :
    subkey_secret_exponent_chain_code_pair sec hmac512 k cc i hd
        (some (public_pair_for_secret_exponent generator_secp256k1 k)) =
      subkey_secret_exponent_chain_code_pair sec hmac512 k cc i hd none := by
  unfold subkey_secret_exponent_chain_code_pair
  cases struct_pack_L i with
  | none => rfl
  | some b => simp only [subkey_secret_data_getD]

/-- Claim C10: the hardened branch of `subkey_secret_exponent_chain_code_pair`
never reads `public_pair`, so with `is_hardened = True` any two values of the
argument give identical outputs. -/
theorem subkey_secret_hardened_ignores_public_pair (sec : Point → List ℕ)
    (hmac512 : List ℕ → List ℕ → List ℕ) (k : ℕ) (cc : List ℕ) (i : ℕ)
    (pp1 pp2 : Option Point) :
    subkey_secret_exponent_chain_code_pair sec hmac512 k cc i true pp1 =
      subkey_secret_exponent_chain_code_pair sec hmac512 k cc i true pp2 := by
  unfold subkey_secret_exponent_chain_code_pair
  cases struct_pack_L i with
  | none => rfl
  | some b => rfl

/-- Claim C8: both derivation functions are deterministic pure functions —
componentwise-equal argument tuples always produce identical outputs
(including logs and failures); the embedding is a pure function of its
arguments, matching the absence of mutable state in the source. -/
theorem subkey_derivations_deterministic (sec : Point → List ℕ)
    (hmac512 : List ℕ → List ℕ → List ℕ) (k1 k2 : ℕ) (cc1 cc2 : List ℕ) (i1 i2 : ℕ)
    (hd1 hd2 : Bool) (pp1 pp2 : Option Point) (P1 P2 : Point) (d1 d2 : List ℕ)
    (j1 j2 : ℕ) :
    (k1 = k2 → cc1 = cc2 → i1 = i2 → hd1 = hd2 → pp1 = pp2 →
      subkey_secret_exponent_chain_code_pair sec hmac512 k1 cc1 i1 hd1 pp1 =
        subkey_secret_exponent_chain_code_pair sec hmac512 k2 cc2 i2 hd2 pp2)
    ∧ (P1 = P2 → d1 = d2 → j1 = j2 →
      subkey_public_pair_chain_code_pair sec hmac512 P1 d1 j1 =
        subkey_public_pair_chain_code_pair sec hmac512 P2 d2 j2) := by
  constructor
  · intro e1 e2 e3 e4 e5
    rw [e1, e2, e3, e4, e5]
  · intro e1 e2 e3
    rw [e1, e2, e3]

/-- Witness for C8 at concrete inputs. -/
theorem subkey_derivations_deterministic_witness :
    subkey_secret_exponent_chain_code_pair secDemo hmacZero 1 [] 0 false none =
        subkey_secret_exponent_chain_code_pair secDemo hmacZero 1 [] 0 false none
    ∧ subkey_public_pair_chain_code_pair secDemo hmacZero 1 [] 0 =
        subkey_public_pair_chain_code_pair secDemo hmacZero 1 [] 0 :=
  ⟨(subkey_derivations_deterministic secDemo hmacZero 1 1 [] [] 0 0 false false none none
      1 1 [] [] 0 0).1 rfl rfl rfl rfl rfl,
   (subkey_derivations_deterministic secDemo hmacZero 1 1 [] [] 0 0 false false none none
      1 1 [] [] 0 0).2 rfl rfl rfl⟩

/-- Counterexample to claim C6 as stated: at index `i = 2 ^ 31` (top bit set),
`subkey_public_pair_chain_code_pair` raises `struct.error` from its signed
`struct.pack(">l", i)` before building any data bytes, while
`subkey_secret_exponent_chain_code_pair` packs the same index unsigned and
succeeds, so the public function does not accept the full 32-bit range. -/
theorem subkey_index_packing_counterexample :
    (subkey_public_pair_chain_code_pair secDemo hmacZero 1 [] (2 ^ 31)).2 =
        Except.error PyErr.structError
    ∧ (subkey_secret_exponent_chain_code_pair secDemo hmacZero 1 [] (2 ^ 31) false none).2 =
        Except.ok (1, List.replicate 32 0) := by
  constructor
  · rfl
  · decide

/-- Claim C6 amended: for indices in `[0, 2 ^ 31)` the two functions encode the
index into the same unsigned 4-byte big-endian bytes; for indices in
`[2 ^ 31, 2 ^ 32)` the private function still packs them unsigned but the
public function's signed packing fails with `struct.error`. -/
theorem subkey_index_packing_amended (i : ℕ) (h32 : i < 2 ^ 32) :
    (i < 2 ^ 31 → struct_pack_l i = struct_pack_L i ∧ struct_pack_l i = some (beBytes 4 i))
    ∧ (2 ^ 31 ≤ i → struct_pack_l i = none ∧ struct_pack_L i = some (beBytes 4 i)) := by
  unfold struct_pack_l struct_pack_L
  constructor
  · intro h31
    rw [if_pos h31, if_pos h32]
    exact ⟨rfl, rfl⟩
  · intro h31
    rw [if_neg (by omega), if_pos h32]
    exact ⟨rfl, rfl⟩

/-- Witness for the amended C6 at concrete indices. -/
theorem subkey_index_packing_amended_witness :
    (5 : ℕ) < 2 ^ 32
    ∧ ((5 < 2 ^ 31 → struct_pack_l 5 = struct_pack_L 5 ∧ struct_pack_l 5 = some (beBytes 4 5))
       ∧ (2 ^ 31 ≤ 5 → struct_pack_l 5 = none ∧ struct_pack_L 5 = some (beBytes 4 5))) :=
  ⟨by decide, subkey_index_packing_amended 5 (by decide)⟩

/-- Claim C2: whenever `subkey_secret_exponent_chain_code_pair` returns
without error, its result equals the reference private-child derivation
written from the spec: `new_secret_exponent = (I_L + secret_exponent) mod n`
and `new_chain_code = I[32:64]` for `I = HMAC-SHA512(chain_code, data)` with
`data` per the hardened flag. -/
theorem subkey_secret_matches_reference (sec : Point → List ℕ)
    (hmac512 : List ℕ → List ℕ → List ℕ) (k : ℕ) (cc : List ℕ) (i : ℕ) (hd : Bool)
    (r : ℕ × List ℕ) (h32 : i < 2 ^ 32)
    (hok : (subkey_secret_exponent_chain_code_pair sec hmac512 k cc i hd none).2 =
      Except.ok r) :
    r = reference_private_child sec hmac512 k cc i hd := by
  rw [subkey_secret_run sec hmac512 k cc i hd none h32] at hok
  split_ifs at hok with hA hB
  exact (Except.ok.inj hok).symm

/-- Witness for C2 at concrete inputs. -/
theorem subkey_secret_matches_reference_witness :
    (0 : ℕ) < 2 ^ 32
    ∧ (subkey_secret_exponent_chain_code_pair secDemo hmacZero 1 [] 0 false none).2 =
        Except.ok (1, List.replicate 32 0)
    ∧ (1, List.replicate 32 0) = reference_private_child secDemo hmacZero 1 [] 0 false :=
  ⟨by decide, by decide,
   subkey_secret_matches_reference secDemo hmacZero 1 [] 0 false (1, List.replicate 32 0)
     (by decide) (by decide)⟩

/-- Claim C3: whenever `subkey_public_pair_chain_code_pair` returns without
error, its result equals the reference public-child derivation written from
the spec: `new_public_point = I_L·generator + P` and `new_chain_code = I[32:64]`. -/
theorem subkey_public_matches_reference (sec : Point → List ℕ)
    (hmac512 : List ℕ → List ℕ → List ℕ) (P : Point) (cc : List ℕ) (i : ℕ)
    (r : Point × List ℕ) (hP : P < ORDER) (h31 : i < 2 ^ 31)
    (hok : (subkey_public_pair_chain_code_pair sec hmac512 P cc i).2 = Except.ok r) :
    r = reference_public_child sec hmac512 P cc i := by
  rw [subkey_public_run sec hmac512 P cc i h31] at hok
  split_ifs at hok with hA hB
  exact (Except.ok.inj hok).symm

/-- Witness for C3 at concrete inputs. -/
theorem subkey_public_matches_reference_witness :
    (1 : ℕ) < ORDER
    ∧ (0 : ℕ) < 2 ^ 31
    ∧ (subkey_public_pair_chain_code_pair secDemo hmacZero 1 [] 0).2 =
        Except.ok (1, List.replicate 32 0)
    ∧ (1, List.replicate 32 0) = reference_public_child secDemo hmacZero 1 [] 0 :=
  ⟨by decide, by decide, by decide,
   subkey_public_matches_reference secDemo hmacZero 1 [] 0 (1, List.replicate 32 0)
     (by decide) (by decide) (by decide)⟩

/-- Claim C4: for a secret exponent in `[1, n-1]` and a 32-bit index,
`subkey_secret_exponent_chain_code_pair` raises a `ValueError` exactly when
`I_L ≥ n` or `(I_L + secret_exponent) mod n = 0`, and in every other case
returns a pair. -/
theorem subkey_secret_invalid_derivation_iff (sec : Point → List ℕ)
    (hmac512 : List ℕ → List ℕ → List ℕ) (k : ℕ) (cc : List ℕ) (i : ℕ) (hd : Bool)
    (pp : Option Point) (h1 : 1 ≤ k) (h2 : k < ORDER) (h32 : i < 2 ^ 32) :
    ((∃ m, (subkey_secret_exponent_chain_code_pair sec hmac512 k cc i hd pp).2 =
        Except.error (PyErr.valueError m)) ↔
      (ORDER ≤ subkey_secret_IL sec hmac512 k cc i hd pp ∨
        (subkey_secret_IL sec hmac512 k cc i hd pp + k) % ORDER = 0))
    ∧ (¬(ORDER ≤ subkey_secret_IL sec hmac512 k cc i hd pp ∨
        (subkey_secret_IL sec hmac512 k cc i hd pp + k) % ORDER = 0) →
      ∃ p, (subkey_secret_exponent_chain_code_pair sec hmac512 k cc i hd pp).2 =
        Except.ok p) := by
  rw [subkey_secret_run sec hmac512 k cc i hd pp h32]
  by_cases hA : ORDER ≤ subkey_secret_IL sec hmac512 k cc i hd pp
  · simp [hA]
  · by_cases hB : (subkey_secret_IL sec hmac512 k cc i hd pp + k) % ORDER = 0
    · simp [hA, hB]
    · simp [hA, hB]

/-- Witness for C4 at concrete inputs. -/
theorem subkey_secret_invalid_derivation_iff_witness :
    (1 : ℕ) ≤ 1 ∧ (1 : ℕ) < ORDER ∧ (0 : ℕ) < 2 ^ 32
    ∧ (((∃ m, (subkey_secret_exponent_chain_code_pair secDemo hmacZero 1 [] 0 false none).2 =
          Except.error (PyErr.valueError m)) ↔
        (ORDER ≤ subkey_secret_IL secDemo hmacZero 1 [] 0 false none ∨
          (subkey_secret_IL secDemo hmacZero 1 [] 0 false none + 1) % ORDER = 0))
      ∧ (¬(ORDER ≤ subkey_secret_IL secDemo hmacZero 1 [] 0 false none ∨
          (subkey_secret_IL secDemo hmacZero 1 [] 0 false none + 1) % ORDER = 0) →
        ∃ p, (subkey_secret_exponent_chain_code_pair secDemo hmacZero 1 [] 0 false none).2 =
          Except.ok p)) :=
  ⟨by decide, by decide, by decide,
   subkey_secret_invalid_derivation_iff secDemo hmacZero 1 [] 0 false none
     (by decide) (by decide) (by decide)⟩

/-- Claim C5: for a public point and a non-hardened 32-bit index,
`subkey_public_pair_chain_code_pair` raises a `ValueError` exactly when
`I_L ≥ n` or `I_L·generator + P` is the point at infinity, and in every other
case returns a pair; the error is returned to the caller, never retried or
swallowed inside the function. -/
theorem subkey_public_invalid_derivation_iff (sec : Point → List ℕ)
    (hmac512 : List ℕ → List ℕ → List ℕ) (P : Point) (cc : List ℕ) (i : ℕ)
    (hP : P < ORDER) (h31 : i < 2 ^ 31) :
    ((∃ m, (subkey_public_pair_chain_code_pair sec hmac512 P cc i).2 =
        Except.error (PyErr.valueError m)) ↔
      (ORDER ≤ subkey_public_IL sec hmac512 P cc i ∨
        pointAdd (pointMul (subkey_public_IL sec hmac512 P cc i) generator_secp256k1) P =
          INFINITY))
    ∧ (¬(ORDER ≤ subkey_public_IL sec hmac512 P cc i ∨
        pointAdd (pointMul (subkey_public_IL sec hmac512 P cc i) generator_secp256k1) P =
          INFINITY) →
      ∃ p, (subkey_public_pair_chain_code_pair sec hmac512 P cc i).2 = Except.ok p) := by
  rw [subkey_public_run sec hmac512 P cc i h31]
  by_cases hI : pointAdd (pointMul (subkey_public_IL sec hmac512 P cc i) generator_secp256k1) P
      = INFINITY
  · simp [hI]
  · by_cases hA : ORDER ≤ subkey_public_IL sec hmac512 P cc i
    · simp [hI, hA]
    · simp [hI, hA]

/-- Witness for C5 at concrete inputs. -/
theorem subkey_public_invalid_derivation_iff_witness :
    (1 : ℕ) < ORDER ∧ (0 : ℕ) < 2 ^ 31
    ∧ (((∃ m, (subkey_public_pair_chain_code_pair secDemo hmacZero 1 [] 0).2 =
          Except.error (PyErr.valueError m)) ↔
        (ORDER ≤ subkey_public_IL secDemo hmacZero 1 [] 0 ∨
          pointAdd (pointMul (subkey_public_IL secDemo hmacZero 1 [] 0) generator_secp256k1) 1 =
            INFINITY))
      ∧ (¬(ORDER ≤ subkey_public_IL secDemo hmacZero 1 [] 0 ∨
          pointAdd (pointMul (subkey_public_IL secDemo hmacZero 1 [] 0) generator_secp256k1) 1 =
            INFINITY) →
        ∃ p, (subkey_public_pair_chain_code_pair secDemo hmacZero 1 [] 0).2 = Except.ok p)) :=
  ⟨by decide, by decide,
   subkey_public_invalid_derivation_iff secDemo hmacZero 1 [] 0 (by decide) (by decide)⟩

/-- Claim C1: for a secret exponent in `[1, n-1]` and a non-hardened 32-bit
index, public derivation from `generator·secret_exponent` succeeds exactly
when non-hardened private derivation succeeds, and on success returns the
public point `generator·new_secret_exponent` of the privately derived child
together with an identical chain code. -/
theorem subkey_public_matches_private_projection (sec : Point → List ℕ)
    (hmac512 : List ℕ → List ℕ → List ℕ) (k : ℕ) (cc : List ℕ) (i : ℕ)
    (h1 : 1 ≤ k) (h2 : k < ORDER) (h31 : i < 2 ^ 31) :
    ((∃ p, (subkey_public_pair_chain_code_pair sec hmac512
        (pointMul k generator_secp256k1) cc i).2 = Except.ok p) ↔
      (∃ p, (subkey_secret_exponent_chain_code_pair sec hmac512 k cc i false none).2 =
        Except.ok p))
    ∧ ∀ k2 cc2,
        (subkey_secret_exponent_chain_code_pair sec hmac512 k cc i false none).2 =
          Except.ok (k2, cc2) →
        (subkey_public_pair_chain_code_pair sec hmac512
          (pointMul k generator_secp256k1) cc i).2 =
          Except.ok (pointMul k2 generator_secp256k1, cc2) := by
  have h32 : i < 2 ^ 32 := lt_trans h31 (by norm_num)
  have hIL : subkey_public_IL sec hmac512 (pointMul k generator_secp256k1) cc i =
      subkey_secret_IL sec hmac512 k cc i false none := rfl
  rw [subkey_public_run sec hmac512 (pointMul k generator_secp256k1) cc i h31,
    subkey_secret_run sec hmac512 k cc i false none h32, hIL,
    pointAdd_generator_generator]
  have hdrop : hmac512 cc (sec (pointMul k generator_secp256k1) ++ beBytes 4 i) =
      hmac512 cc (subkey_secret_data sec k (beBytes 4 i) false none) := rfl
  rw [hdrop]
  set IL := subkey_secret_IL sec hmac512 k cc i false none with hILdef
  by_cases hB : (IL + k) % ORDER = 0
  · have hBI : (IL + k) % ORDER = INFINITY := hB
    rw [if_pos hBI]
    by_cases hA : ORDER ≤ IL
    · rw [if_pos hA]
      simp
    · rw [if_neg hA, if_pos hB]
      simp
  · have hBI : ¬ (IL + k) % ORDER = INFINITY := hB
    rw [if_neg hBI]
    by_cases hA : ORDER ≤ IL
    · rw [if_pos hA, if_pos hA]
      simp
    · rw [if_neg hA, if_neg hA, if_neg hB]
      constructor
      · simp
      · intro k2 cc2 hk
        have hpair : ((IL + k) % ORDER,
            (hmac512 cc (subkey_secret_data sec k (beBytes 4 i) false none)).drop 32) =
            (k2, cc2) := Except.ok.inj hk
        have hk2 : (IL + k) % ORDER = k2 := congrArg Prod.fst hpair
        have hcc2 : (hmac512 cc (subkey_secret_data sec k (beBytes 4 i) false none)).drop 32 =
            cc2 := congrArg Prod.snd hpair
        have hmul : pointMul k2 generator_secp256k1 = (IL + k) % ORDER := by
          rw [pointMul_generator, ← hk2, Nat.mod_mod_of_dvd _ dvd_rfl]
        rw [hmul, hcc2]

/-- Witness for C1 at concrete inputs. -/
theorem subkey_public_matches_private_projection_witness :
    (1 : ℕ) ≤ 1 ∧ (1 : ℕ) < ORDER ∧ (0 : ℕ) < 2 ^ 31
    ∧ (((∃ p, (subkey_public_pair_chain_code_pair secDemo hmacZero
          (pointMul 1 generator_secp256k1) [] 0).2 = Except.ok p) ↔
        (∃ p, (subkey_secret_exponent_chain_code_pair secDemo hmacZero 1 [] 0 false none).2 =
          Except.ok p))
      ∧ ∀ k2 cc2,
          (subkey_secret_exponent_chain_code_pair secDemo hmacZero 1 [] 0 false none).2 =
            Except.ok (k2, cc2) →
          (subkey_public_pair_chain_code_pair secDemo hmacZero
            (pointMul 1 generator_secp256k1) [] 0).2 =
            Except.ok (pointMul k2 generator_secp256k1, cc2)) :=
  ⟨by decide, by decide, by decide,
   subkey_public_matches_private_projection secDemo hmacZero 1 [] 0
     (by decide) (by decide) (by decide)⟩

lemma subkey_secret_valueError_shape (sec : Point → List ℕ)
    (hmac512 : List ℕ → List ℕ → List ℕ) (k : ℕ) (cc : List ℕ) (i : ℕ) (hd : Bool)
    (pp : Option Point) (l : List String) (m : String)
    (hr : subkey_secret_exponent_chain_code_pair sec hmac512 k cc i hd pp =
      (l, Except.error (PyErr.valueError m))) :
    l = [SUBKEY_VALIDATION_LOG_ERR_FMT] ∧
      ((ORDER ≤ subkey_secret_IL sec hmac512 k cc i hd pp ∧ m = msg_IL_ge_order) ∨
       (¬ ORDER ≤ subkey_secret_IL sec hmac512 k cc i hd pp ∧ m = msg_k_zero i)) := by
  rcases Nat.lt_or_ge i (2 ^ 32) with h32 | h32
  · rw [subkey_secret_run sec hmac512 k cc i hd pp h32] at hr
    split_ifs at hr with hA hB
    · injection hr with hl hv
      injection hv with hv2
      injection hv2 with hv3
      exact ⟨hl.symm, Or.inl ⟨hA, hv3.symm⟩⟩
    · injection hr with hl hv
      injection hv with hv2
      injection hv2 with hv3
      exact ⟨hl.symm, Or.inr ⟨hA, hv3.symm⟩⟩
    · injection hr with hl hv
      injection hv
  · have hnone : subkey_secret_exponent_chain_code_pair sec hmac512 k cc i hd pp =
        ([], Except.error PyErr.structError) := by
      unfold subkey_secret_exponent_chain_code_pair struct_pack_L
      rw [if_neg (by omega)]
    rw [hnone] at hr
    injection hr with hl hv
    injection hv with hv2
    injection hv2

/-- Claim C9: the failure paths of `subkey_secret_exponent_chain_code_pair`
never put secret bytes into the raised error or the logged message — for two
runs that differ only in `secret_exponent`, `chain_code_bytes` and
`public_pair` but fail with a `ValueError` on the same branch at the same
index, the log output and the error message are identical (the log is the
fixed module constant; the message depends only on `i` and `ORDER`). -/
theorem subkey_secret_error_no_secret_leak (sec : Point → List ℕ)
    (hmac512 : List ℕ → List ℕ → List ℕ) (i : ℕ) (hd : Bool)
    (k1 k2 : ℕ) (cc1 cc2 : List ℕ) (pp1 pp2 : Option Point)
    (l1 l2 : List String) (m1 m2 : String)
    (hr1 : subkey_secret_exponent_chain_code_pair sec hmac512 k1 cc1 i hd pp1 =
      (l1, Except.error (PyErr.valueError m1)))
    (hr2 : subkey_secret_exponent_chain_code_pair sec hmac512 k2 cc2 i hd pp2 =
      (l2, Except.error (PyErr.valueError m2)))
    (hbranch : (ORDER ≤ subkey_secret_IL sec hmac512 k1 cc1 i hd pp1) ↔
      (ORDER ≤ subkey_secret_IL sec hmac512 k2 cc2 i hd pp2)) :
    l1 = l2 ∧ m1 = m2 := by
  obtain ⟨hl1, hc1⟩ := subkey_secret_valueError_shape sec hmac512 k1 cc1 i hd pp1 l1 m1 hr1
  obtain ⟨hl2, hc2⟩ := subkey_secret_valueError_shape sec hmac512 k2 cc2 i hd pp2 l2 m2 hr2
  refine ⟨hl1.trans hl2.symm, ?_⟩
  rcases hc1 with ⟨hA1, hm1⟩ | ⟨hA1, hm1⟩ <;> rcases hc2 with ⟨hA2, hm2⟩ | ⟨hA2, hm2⟩
  · exact hm1.trans hm2.symm
  · exact absurd (hbranch.mp hA1) hA2
  · exact absurd (hbranch.mpr hA2) hA1
  · exact hm1.trans hm2.symm

/-- Witness for C9: two runs with different secret exponents and chain codes
failing on the same branch. -/
theorem subkey_secret_error_no_secret_leak_witness :
    subkey_secret_exponent_chain_code_pair secDemo hmacFF 1 [] 0 false none =
        ([SUBKEY_VALIDATION_LOG_ERR_FMT], Except.error (PyErr.valueError msg_IL_ge_order))
    ∧ subkey_secret_exponent_chain_code_pair secDemo hmacFF 2 [7] 0 false none =
        ([SUBKEY_VALIDATION_LOG_ERR_FMT], Except.error (PyErr.valueError msg_IL_ge_order))
    ∧ ((ORDER ≤ subkey_secret_IL secDemo hmacFF 1 [] 0 false none) ↔
        (ORDER ≤ subkey_secret_IL secDemo hmacFF 2 [7] 0 false none))
    ∧ ([SUBKEY_VALIDATION_LOG_ERR_FMT] = [SUBKEY_VALIDATION_LOG_ERR_FMT]
        ∧ msg_IL_ge_order = msg_IL_ge_order) :=
  ⟨rfl, rfl, by decide,
   subkey_secret_error_no_secret_leak secDemo hmacFF 0 false 1 2 [] [7] none none
     [SUBKEY_VALIDATION_LOG_ERR_FMT] [SUBKEY_VALIDATION_LOG_ERR_FMT]
     msg_IL_ge_order msg_IL_ge_order rfl rfl (by decide)⟩
